import Mathlib

/- Verification of the credate report / access-request / search actions
   (src/app/actions/report.action.ts, src/app/actions/search.action.ts and the
   access-request actions) against their natural-language specification.
   The TypeScript server actions are shallowly embedded: the Prisma store is a
   record of lists, each server action is a Lean function from arguments and a
   store state to a result and a new state.  JavaScript numbers are modelled as
   rationals, optional columns as `Option String` (Prisma `null` = `none`). -/

namespace Credate

/-- Status of a ReportAccessRequest: the Prisma enum PENDING / APPROVED / DENIED. -/
inductive Status where
  | pending
  | approved
  | denied
deriving DecidableEq, Repr

/-- JavaScript `status.toLowerCase()` on the status enum string. -/
def Status.lower : Status → String
  | .pending => "pending"
  | .approved => "approved"
  | .denied => "denied"

/-- A row of the Report table.  Optional columns are `Option String`
    (`none` = SQL NULL); `rating` is a JS number, modelled as a rational. -/
structure Report where
  id : String
  userId : String
  name : Option String
  instagramId : Option String
  facebookId : Option String
  email : Option String
  phoneNumber : Option String
  rating : Rat
  description : Option String
deriving DecidableEq, Repr

/-- A row of the ReportAccessRequest table. -/
structure AccessRequest where
  id : String
  reportId : String
  reportOwnerId : String
  requesterId : String
  message : String
  status : Status
deriving DecidableEq, Repr

/-- A row of the Search table. -/
structure Search where
  id : String
  userId : String
  name : Option String
  instagramId : Option String
  facebookId : Option String
  email : Option String
  phoneNumber : Option String
deriving DecidableEq, Repr

/-- A row of the SearchResult table. -/
structure SearchResult where
  id : String
  searchId : String
  reportId : String
  matchedOn : String
deriving DecidableEq, Repr

/-- The Prisma store: one list per table, plus a counter supplying fresh ids
    (the store generates record ids on create). -/
structure DB where
  reports : List Report
  requests : List AccessRequest
  searches : List Search
  searchResults : List SearchResult
  nextId : Nat
deriving DecidableEq, Repr

/-- Fresh id generation by the store. -/
def freshId (db : DB) : String := "id" ++ toString db.nextId

/-- Errors surfaced by the actions: `validation` stands for a thrown zod parse
    error (whose message string is zod-generated JSON and is not modelled);
    `msg s` is a literal error string written in the action source. -/
inductive SvcError where
  | validation
  | msg (s : String)
deriving DecidableEq, Repr

/-- Result of an action body: the `{success: true, ...}` / `{success: false, error}`
    shape of every server action. -/
inductive Res (α : Type) where
  | ok (a : α)
  | error (e : SvcError)
deriving DecidableEq, Repr

/- ### zod validation, embedded from the schemas in the two action files -/

/-- Characters admitted in the local part by zod's `z.string().email()` pattern:
    letters, digits, underscore, apostrophe, plus, hyphen, dot. -/
def emailLocalChar (c : Char) : Bool :=
  c.isAlpha || c.isDigit || c == '_' || c.toNat == 39 || c == '+' || c == '-' || c == '.'

/-- Characters the local part may end with (no dot, no apostrophe). -/
def emailLocalLastChar (c : Char) : Bool :=
  c.isAlpha || c.isDigit || c == '_' || c == '+' || c == '-'

/-- No two consecutive dots (zod's negative lookahead on the email pattern). -/
def noDoubleDot : List Char → Bool
  | [] => true
  | '.' :: '.' :: _ => false
  | _ :: rest => noDoubleDot rest

/-- Local part of an email per zod's pattern: nonempty, allowed charset, does
    not start with a dot, contains no double dot, ends in a non-dot character. -/
def emailLocalOk (l : List Char) : Bool :=
  !l.isEmpty && l.all emailLocalChar && noDoubleDot l &&
    (match l.head? with
     | some c => !(c == '.')
     | none => false) &&
    (match l.getLast? with
     | some c => emailLocalLastChar c
     | none => false)

/-- A non-final domain label: alphanumeric first character, then alphanumerics
    or hyphens. -/
def emailLabelOk : List Char → Bool
  | [] => false
  | c :: rest => (c.isAlpha || c.isDigit) && rest.all fun d => d.isAlpha || d.isDigit || d == '-'

/-- The final domain label: at least two letters. -/
def emailTldOk (l : List Char) : Bool :=
  2 ≤ l.length && l.all Char.isAlpha

/-- Split a character list at every occurrence of a separator character. -/
def splitOnChar (c : Char) : List Char → List (List Char)
  | [] => [[]]
  | x :: rest =>
      match splitOnChar c rest, x == c with
      | r, true => [] :: r
      | h :: t, false => (x :: h) :: t
      | [], false => [[x]]

/-- Domain per zod's pattern: one or more labels, a dot-separated tail whose
    last label is a two-plus-letter TLD. -/
def emailDomainOk (d : List Char) : Bool :=
  let labels := splitOnChar '.' d
  2 ≤ labels.length &&
    labels.dropLast.all emailLabelOk &&
    (match labels.getLast? with
     | some t => emailTldOk t
     | none => false)

/-- zod `z.string().email()` check (modelled from the zod library's email
    pattern; zod is an external dependency, not repository code). -/
def emailOk (s : String) : Bool :=
  match splitOnChar '@' s.toList with
  | [l, d] => emailLocalOk l && emailDomainOk d
  | _ => false

/-- zod `z.string().max(n).optional()`: absent passes, present must fit. -/
def lenOk (s : Option String) (n : Nat) : Bool :=
  match s with
  | none => true
  | some v => v.length ≤ n

/-- zod `z.string().email().optional()`. -/
def optEmailOk : Option String → Bool
  | none => true
  | some v => emailOk v

/-- JavaScript truthiness of an optional string field: present and nonempty. -/
def optTruthy : Option String → Bool
  | none => false
  | some v => !(v == "")

/-- The input to searchInputSchema: the five optional identifier fields.
    A field explicitly set to `undefined` behaves exactly like an absent one in
    both the OR-condition filter and the matchedOn scan, so both are `none`. -/
structure SearchInput where
  name : Option String
  instagramId : Option String
  facebookId : Option String
  email : Option String
  phoneNumber : Option String
deriving DecidableEq, Repr

/-- The `.refine` of both schemas: at least one identifier is truthy. -/
def SearchInput.hasIdentifier (d : SearchInput) : Bool :=
  optTruthy d.name || optTruthy d.instagramId || optTruthy d.facebookId ||
    optTruthy d.email || optTruthy d.phoneNumber

/-- searchInputSchema.parse: field checks plus the refine; returns the data on
    success (zod strip mode returns the same known fields). -/
def parseSearchInput (d : SearchInput) : Option SearchInput :=
  if lenOk d.name 100 && lenOk d.instagramId 100 && lenOk d.facebookId 100 &&
      optEmailOk d.email && lenOk d.phoneNumber 20 && d.hasIdentifier
  then some d else none

/-- The input to reportInputSchema: identifiers plus rating and description. -/
structure ReportInput where
  name : Option String
  instagramId : Option String
  facebookId : Option String
  email : Option String
  phoneNumber : Option String
  rating : Rat
  description : Option String
deriving DecidableEq, Repr

/-- The `.refine` of reportInputSchema: at least one identifier is truthy. -/
def ReportInput.hasIdentifier (d : ReportInput) : Bool :=
  optTruthy d.name || optTruthy d.instagramId || optTruthy d.facebookId ||
    optTruthy d.email || optTruthy d.phoneNumber

/-- The `z.number().min(0).max(10)` check on rating. -/
def ratingOk (q : Rat) : Bool :=
  decide (0 ≤ q) && decide (q ≤ 10)

/-- All reportInputSchema checks other than the rating bounds. -/
def reportIdentChecks (d : ReportInput) : Bool :=
  lenOk d.name 100 && lenOk d.instagramId 100 && lenOk d.facebookId 100 &&
    optEmailOk d.email && lenOk d.phoneNumber 20 && lenOk d.description 1000 &&
    d.hasIdentifier

/-- reportInputSchema.parse. -/
def parseReportInput (d : ReportInput) : Option ReportInput :=
  if reportIdentChecks d && ratingOk d.rating then some d else none

/- ### The match predicate and matchedOn scan of createSearch -/

/-- One entry of `Object.entries(data)` for a single optional field: absent
    (or undefined) fields contribute nothing to the OR conditions and can never
    satisfy the matchedOn scan (report columns are null, never undefined). -/
def optEntry (k : String) : Option String → List (String × String)
  | none => []
  | some v => [(k, v)]

/-- `Object.entries(data)` on the zod-parsed search data, in the zod shape's
    declaration order: name, instagramId, facebookId, email, phoneNumber;
    restricted to the provided (non-undefined, non-null) fields, exactly the
    entries the `orConditions` filter keeps.  Note a provided empty string
    survives the filter (only undefined and null are dropped). -/
def providedEntries (d : SearchInput) : List (String × String) :=
  optEntry "name" d.name ++ (optEntry "instagramId" d.instagramId ++
    (optEntry "facebookId" d.facebookId ++ (optEntry "email" d.email ++
      optEntry "phoneNumber" d.phoneNumber)))

/-- Column access `report[key]` for the five identifier keys. -/
def Report.field (r : Report) : String → Option String
  | "name" => r.name
  | "instagramId" => r.instagramId
  | "facebookId" => r.facebookId
  | "email" => r.email
  | "phoneNumber" => r.phoneNumber
  | _ => none

/-- The Prisma `where: { OR: orConditions }` predicate of createSearch: the
    report satisfies some single-field equality among the provided fields. -/
def matchesReport (d : SearchInput) (r : Report) : Bool :=
  (providedEntries d).any fun kv => r.field kv.1 == some kv.2

/-- The matchedOn computation of createSearch:
    `Object.entries(data).find(([key, value]) => report[key] === value)?.[0] || "unknown"`. -/
def matchedOnField (d : SearchInput) (r : Report) : String :=
  match (providedEntries d).find? (fun kv => r.field kv.1 == some kv.2) with
  | some kv => kv.1
  | none => "unknown"

/-- The SearchResult rows built inside the `$transaction` call, one per
    matching report, each with a store-generated id. -/
def buildResults (searchId : String) (d : SearchInput) : Nat → List Report → List SearchResult
  | _, [] => []
  | n, r :: rest =>
      { id := "id" ++ toString n, searchId := searchId, reportId := r.id,
        matchedOn := matchedOnField d r } :: buildResults searchId d (n + 1) rest

/- ### The server actions -/

/-- createReport (report.action.ts): zod-parse the input, then persist a
    Report owned by userId.  The persistence engine is out of scope of the
    spec, so `prisma.report.create` is modelled as an append with a fresh id. -/
def createReport (userId : String) (input : ReportInput) (db : DB) :
    Res Report × DB :=
  match parseReportInput input with
  | none => (.error .validation, db)
  | some d =>
      let r : Report :=
        { id := freshId db, userId := userId, name := d.name,
          instagramId := d.instagramId, facebookId := d.facebookId,
          email := d.email, phoneNumber := d.phoneNumber, rating := d.rating,
          description := d.description }
      (.ok r, { db with reports := db.reports ++ [r], nextId := db.nextId + 1 })

/-- Prisma update semantics for one optional column: a key absent from (or
    undefined in) the update data leaves the stored value unchanged. -/
def mergeField : Option String → Option String → Option String
  | some v, _ => some v
  | none, old => old

/-- The effect of `prisma.report.update({ data })` on one row: provided fields
    overwrite, omitted optional fields keep their stored values, rating (always
    present in the parsed data) overwrites. -/
def applyReportUpdate (d : ReportInput) (r : Report) : Report :=
  { r with
    name := mergeField d.name r.name,
    instagramId := mergeField d.instagramId r.instagramId,
    facebookId := mergeField d.facebookId r.facebookId,
    email := mergeField d.email r.email,
    phoneNumber := mergeField d.phoneNumber r.phoneNumber,
    rating := d.rating,
    description := mergeField d.description r.description }

/-- updateReport (report.action.ts): find, ownership check, re-validate,
    overwrite via Prisma update semantics. -/
def updateReport (userId reportId : String) (input : ReportInput) (db : DB) :
    Res Report × DB :=
  match db.reports.find? (fun r => r.id == reportId) with
  | none => (.error (.msg "Report not found"), db)
  | some existing =>
      if existing.userId == userId then
        match parseReportInput input with
        | none => (.error .validation, db)
        | some d =>
            (.ok (applyReportUpdate d existing),
             { db with reports := db.reports.map fun r =>
                 if r.id == reportId then applyReportUpdate d r else r })
      else (.error (.msg "Unauthorized: You do not own this report"), db)

/-- deleteReport (report.action.ts). -/
def deleteReport (userId reportId : String) (db : DB) : Res Unit × DB :=
  match db.reports.find? (fun r => r.id == reportId) with
  | none => (.error (.msg "Report not found"), db)
  | some r =>
      if r.userId == userId then
        (.ok (), { db with reports := db.reports.filter fun x => !(x.id == reportId) })
      else (.error (.msg "Unauthorized access"), db)

/-- getReportById (report.action.ts): one findFirst whose where-clause demands
    the requested id AND (ownership OR some APPROVED access request of this
    caller on this report); a missing report and a denied one fall into the
    same `!report` branch with the same error string. -/
def getReportById (userId reportId : String) (db : DB) : Res Report :=
  match db.reports.find? (fun r =>
      r.id == reportId &&
        (r.userId == userId ||
          db.requests.any fun q =>
            q.reportId == r.id && q.requesterId == userId && q.status == Status.approved)) with
  | some r => .ok r
  | none => .error (.msg "Access denied or report not found.")

/-- requestAccessToReport (access-request actions): report lookup, self-request
    guard, duplicate guard (findFirst on reportId and requesterId, failing with
    the existing status in the message), message validation, then create a
    PENDING request snapshotting the report owner. -/
def requestAccessToReport (userId reportId : String) (message : String) (db : DB) :
    Res AccessRequest × DB :=
  match db.reports.find? (fun r => r.id == reportId) with
  | none => (.error (.msg "Report not found"), db)
  | some report =>
      if report.userId == userId then
        (.error (.msg "You already own this report"), db)
      else
        match db.requests.find? (fun q => q.reportId == reportId && q.requesterId == userId) with
        | some existing =>
            (.error (.msg ("You already have a " ++ existing.status.lower ++
              " request for this report.")), db)
        | none =>
            if 10 ≤ message.length ∧ message.length ≤ 1000 then
              let req : AccessRequest :=
                { id := freshId db, reportId := report.id,
                  reportOwnerId := report.userId, requesterId := userId,
                  message := message, status := .pending }
              (.ok req, { db with requests := db.requests ++ [req], nextId := db.nextId + 1 })
            else (.error .validation, db)

/-- The effect of `prisma.reportAccessRequest.update({ where: { id }, data: { status } })`. -/
def setStatus (db : DB) (requestId : String) (s : Status) : DB :=
  { db with requests := db.requests.map fun q =>
      if q.id == requestId then { q with status := s } else q }

/-- approveAccessRequest (access-request actions). -/
def approveAccessRequest (reportOwnerId requestId : String) (db : DB) :
    Res AccessRequest × DB :=
  match db.requests.find? (fun q => q.id == requestId) with
  | none => (.error (.msg "Request not found"), db)
  | some req =>
      if req.reportOwnerId == reportOwnerId then
        if req.status == Status.pending then
          (.ok { req with status := .approved }, setStatus db requestId .approved)
        else (.error (.msg ("Request is already " ++ req.status.lower)), db)
      else (.error (.msg "You don\x27t have permission to approve this request"), db)

/-- denyAccessRequest (access-request actions). -/
def denyAccessRequest (reportOwnerId requestId : String) (db : DB) :
    Res AccessRequest × DB :=
  match db.requests.find? (fun q => q.id == requestId) with
  | none => (.error (.msg "Request not found"), db)
  | some req =>
      if req.reportOwnerId == reportOwnerId then
        if req.status == Status.pending then
          (.ok { req with status := .denied }, setStatus db requestId .denied)
        else (.error (.msg ("Request is already " ++ req.status.lower)), db)
      else (.error (.msg "You don\x27t have permission to deny this request"), db)

/-- createSearch (search.action.ts): parse, persist the Search row, build the
    OR conditions from the provided fields, find the matching reports, then
    write one SearchResult per match inside a single `prisma.$transaction`
    call.  `txFail` models the outcome of that transaction primitive (the
    store's transaction is all-or-nothing and out of scope of the spec):
    `some m` means it threw with message `m` and wrote nothing, `none` means it
    committed every row. -/
def createSearch (userId : String) (input : SearchInput) (txFail : Option String)
    (db : DB) : Res (Search × Option (List SearchResult)) × DB :=
  match parseSearchInput input with
  | none => (.error .validation, db)
  | some d =>
      let search : Search :=
        { id := freshId db, userId := userId, name := d.name,
          instagramId := d.instagramId, facebookId := d.facebookId,
          email := d.email, phoneNumber := d.phoneNumber }
      let db1 : DB := { db with searches := db.searches ++ [search], nextId := db.nextId + 1 }
      if (providedEntries d).isEmpty then
        (.ok (search, none), db1)
      else
        let matching := db1.reports.filter (matchesReport d)
        match txFail with
        | some m => (.error (.msg m), db1)
        | none =>
            let results := buildResults search.id d db1.nextId matching
            (.ok (search, some results),
             { db1 with searchResults := db1.searchResults ++ results,
                        nextId := db1.nextId + matching.length })

/-- The effect of `prisma.search.update({ data })` on one row. -/
def applySearchUpdate (d : SearchInput) (s : Search) : Search :=
  { s with
    name := mergeField d.name s.name,
    instagramId := mergeField d.instagramId s.instagramId,
    facebookId := mergeField d.facebookId s.facebookId,
    email := mergeField d.email s.email,
    phoneNumber := mergeField d.phoneNumber s.phoneNumber }

/-- updateSearch (search.action.ts). -/
def updateSearch (userId searchId : String) (input : SearchInput) (db : DB) :
    Res Search × DB :=
  match db.searches.find? (fun s => s.id == searchId) with
  | none => (.error (.msg "Search not found"), db)
  | some existing =>
      if existing.userId == userId then
        match parseSearchInput input with
        | none => (.error .validation, db)
        | some d =>
            (.ok (applySearchUpdate d existing),
             { db with searches := db.searches.map fun s =>
                 if s.id == searchId then applySearchUpdate d s else s })
      else (.error (.msg "Unauthorized: You do not own this search"), db)

/-- deleteSearch (search.action.ts): deletes the Search row only (cascades are
    the store schema's business and are not in the source). -/
def deleteSearch (userId searchId : String) (db : DB) : Res Unit × DB :=
  match db.searches.find? (fun s => s.id == searchId) with
  | none => (.error (.msg "Search not found"), db)
  | some s =>
      if s.userId == userId then
        (.ok (), { db with searches := db.searches.filter fun x => !(x.id == searchId) })
      else (.error (.msg "Unauthorized access"), db)

/- ### The mutating operations of the system, as one step relation -/

/-- One invocation of a state-changing server action. -/
inductive Op where
  | opCreateReport (userId : String) (input : ReportInput)
  | opUpdateReport (userId reportId : String) (input : ReportInput)
  | opDeleteReport (userId reportId : String)
  | opRequestAccess (userId reportId message : String)
  | opApprove (ownerId requestId : String)
  | opDeny (ownerId requestId : String)
  | opCreateSearch (userId : String) (input : SearchInput) (txFail : Option String)
  | opUpdateSearch (userId searchId : String) (input : SearchInput)
  | opDeleteSearch (userId searchId : String)
deriving DecidableEq, Repr

/-- The store state after one action invocation. -/
def step (op : Op) (db : DB) : DB :=
  match op with
  | .opCreateReport u i => (createReport u i db).2
  | .opUpdateReport u rid i => (updateReport u rid i db).2
  | .opDeleteReport u rid => (deleteReport u rid db).2
  | .opRequestAccess u rid m => (requestAccessToReport u rid m db).2
  | .opApprove o q => (approveAccessRequest o q db).2
  | .opDeny o q => (denyAccessRequest o q db).2
  | .opCreateSearch u i tf => (createSearch u i tf db).2
  | .opUpdateSearch u sid i => (updateSearch u sid i db).2
  | .opDeleteSearch u sid => (deleteSearch u sid db).2

/- ### Spec-side definitions (from the specification's words, for comparison) -/

/-- The spec's field-level match: the input provides the field and the report's
    corresponding column carries exactly that value. -/
def fieldPairMatches : Option String → Option String → Bool
  | some v, rv => rv == some v
  | none, _ => false

/-- Spec-side matchedOn (spec section 4.3 step 4): scan the fixed priority
    order name, instagramId, facebookId, email, phoneNumber and report the
    first field whose value equals the matched report's corresponding field. -/
def priorityMatchedOn (d : SearchInput) (r : Report) : Option String :=
  if fieldPairMatches d.name r.name then some "name"
  else if fieldPairMatches d.instagramId r.instagramId then some "instagramId"
  else if fieldPairMatches d.facebookId r.facebookId then some "facebookId"
  else if fieldPairMatches d.email r.email then some "email"
  else if fieldPairMatches d.phoneNumber r.phoneNumber then some "phoneNumber"
  else none

/-- Spec-side match predicate of claim C2: some provided AND NON-EMPTY field of
    the input equals the report's corresponding field. -/
def nonEmptyFieldMatch (d : SearchInput) (r : Report) : Bool :=
  ((providedEntries d).filter fun kv => !(kv.2 == "")).any fun kv =>
    r.field kv.1 == some kv.2

/- ### Concrete fixtures used by witnesses and counterexamples -/

/-- Witness fixture: a report owned by alice with a name and an email. -/
def wReport : Report :=
  { id := "r1", userId := "alice", name := some "John Doe", instagramId := none,
    facebookId := none, email := some "a@x.com", phoneNumber := none,
    rating := 8, description := none }

/-- Witness fixture: a store holding only wReport. -/
def wDB : DB :=
  { reports := [wReport], requests := [], searches := [], searchResults := [], nextId := 0 }

/-- Witness fixture: a search input providing only the email. -/
def wEmailInput : SearchInput :=
  { name := none, instagramId := none, facebookId := none, email := some "a@x.com",
    phoneNumber := none }

/-- Witness fixture: a search input providing both the name and the email. -/
def wBothInput : SearchInput :=
  { name := some "John Doe", instagramId := none, facebookId := none,
    email := some "a@x.com", phoneNumber := none }

/-- Witness fixture: the Search row created for wEmailInput on wDB. -/
def wSearch : Search :=
  { id := "id0", userId := "bob", name := none, instagramId := none, facebookId := none,
    email := some "a@x.com", phoneNumber := none }

/-- Witness fixture: the SearchResult row created for wEmailInput on wDB. -/
def wResult : SearchResult :=
  { id := "id1", searchId := "id0", reportId := "r1", matchedOn := "email" }

/-- Counterexample fixture for C2: search input providing a name and an
    empty-string phone number. -/
def c2Input : SearchInput :=
  { name := some "Bob", instagramId := none, facebookId := none, email := none,
    phoneNumber := some "" }

/-- Counterexample fixture for C2: a report with a different name and an
    empty-string phone number. -/
def c2Report : Report :=
  { id := "r2", userId := "carol", name := some "Alice", instagramId := none,
    facebookId := none, email := none, phoneNumber := some "", rating := 5,
    description := none }

/-- Counterexample fixture for C2: a store holding only c2Report. -/
def c2DB : DB :=
  { reports := [c2Report], requests := [], searches := [], searchResults := [], nextId := 0 }

/-- Counterexample fixture for C7: a schema-valid report input whose rating is
    a non-integer. -/
def c7Input : ReportInput :=
  { name := some "x", instagramId := none, facebookId := none, email := none,
    phoneNumber := none, rating := mkRat 11 2, description := none }

/-- Counterexample fixture for C8: a stored report carrying an email and a
    description. -/
def c8Report : Report :=
  { id := "r8", userId := "carol", name := some "Old Name", instagramId := none,
    facebookId := none, email := some "old@x.com", phoneNumber := none,
    rating := 3, description := some "old words" }

/-- Counterexample fixture for C8: a store holding only c8Report. -/
def c8DB : DB :=
  { reports := [c8Report], requests := [], searches := [], searchResults := [], nextId := 0 }

/-- Counterexample fixture for C8: an update record that provides a new name
    and rating but omits email and description. -/
def c8Input : ReportInput :=
  { name := some "New Name", instagramId := none, facebookId := none, email := none,
    phoneNumber := none, rating := 7, description := none }

/-- Witness fixture for C5: an already APPROVED request by bob on alice's
    report. -/
def c5Request : AccessRequest :=
  { id := "q1", reportId := "r1", reportOwnerId := "alice", requesterId := "bob",
    message := "please share this report", status := Status.approved }

/-- Witness fixture for C5: the store holding wReport and c5Request. -/
def c5DB : DB :=
  { reports := [wReport], requests := [c5Request], searches := [], searchResults := [],
    nextId := 5 }

/-- Witness fixture for C3: a pending request by bob on alice's report. -/
def c3Request : AccessRequest :=
  { id := "q3", reportId := "r1", reportOwnerId := "alice", requesterId := "bob",
    message := "please share this report", status := Status.pending }

/-- Witness fixture for C3: the store holding wReport and c3Request. -/
def c3DB : DB :=
  { reports := [wReport], requests := [c3Request], searches := [], searchResults := [],
    nextId := 7 }

/- ### Helper lemmas -/

theorem parseSearchInput_eq_some {i d : SearchInput} :
    parseSearchInput i = some d → d = i := by
  unfold parseSearchInput
  split
  · intro h; injection h with h; exact h.symm
  · intro h; cases h

theorem parseReportInput_eq_some {i d : ReportInput} :
    parseReportInput i = some d → d = i := by
  unfold parseReportInput
  split
  · intro h; injection h with h; exact h.symm
  · intro h; cases h

theorem find?_and_of_find? {α : Type} (p q : α → Bool) :
    ∀ (l : List α) (a : α), l.find? p = some a → q a = true →
      l.find? (fun x => p x && q x) = some a := by
  intro l a h hq
  induction l with
  | nil => cases h
  | cons x xs ih =>
      rw [List.find?_cons] at h ⊢
      cases hx : p x
      · simp [hx] at h ⊢
        exact ih (by simpa [hx] using h)
      · simp [hx] at h ⊢
        subst h
        simp [hq]

theorem any_optEntry (f : String × String → Bool) (k : String) (dv : Option String) :
    (optEntry k dv).any f = (match dv with | some v => f (k, v) | none => false) := by
  cases dv <;> simp [optEntry]

theorem matchesReport_eq (d : SearchInput) (r : Report) :
    matchesReport d r =
      (fieldPairMatches d.name r.name || (fieldPairMatches d.instagramId r.instagramId ||
        (fieldPairMatches d.facebookId r.facebookId || (fieldPairMatches d.email r.email ||
          fieldPairMatches d.phoneNumber r.phoneNumber)))) := by
  unfold matchesReport providedEntries
  rw [List.any_append, List.any_append, List.any_append, List.any_append]
  rw [any_optEntry, any_optEntry, any_optEntry, any_optEntry, any_optEntry]
  cases d.name <;> cases d.instagramId <;> cases d.facebookId <;> cases d.email <;>
    cases d.phoneNumber <;> rfl

theorem find?_optEntry_append (f : String × String → Bool) (k : String) (dv : Option String)
    (rest : List (String × String)) :
    ((optEntry k dv ++ rest).find? f).map Prod.fst =
      (match dv with
       | some v => if f (k, v) then some k else (rest.find? f).map Prod.fst
       | none => (rest.find? f).map Prod.fst) := by
  cases dv
  · simp [optEntry]
  · rename_i v
    simp only [optEntry, List.cons_append, List.nil_append, List.find?_cons]
    cases h : f (k, v) <;> simp [h]

theorem find?_optEntry (f : String × String → Bool) (k : String) (dv : Option String) :
    ((optEntry k dv).find? f).map Prod.fst =
      (match dv with
       | some v => if f (k, v) then some k else none
       | none => none) := by
  cases dv
  · simp [optEntry]
  · rename_i v
    simp only [optEntry, List.find?_cons]
    cases h : f (k, v) <;> simp [h]

theorem priorityMatchedOn_eq_find (d : SearchInput) (r : Report) :
    priorityMatchedOn d r =
      ((providedEntries d).find? (fun kv => r.field kv.1 == some kv.2)).map Prod.fst := by
  unfold priorityMatchedOn providedEntries
  rw [find?_optEntry_append, find?_optEntry_append, find?_optEntry_append,
    find?_optEntry_append, find?_optEntry]
  cases d.name <;> cases d.instagramId <;> cases d.facebookId <;> cases d.email <;>
    cases d.phoneNumber <;> rfl

theorem buildResults_length (sid : String) (d : SearchInput) :
    ∀ (n : Nat) (l : List Report), (buildResults sid d n l).length = l.length := by
  intro n l
  induction l generalizing n with
  | nil => rfl
  | cons r rest ih => simp [buildResults, ih]

theorem buildResults_map_reportId (sid : String) (d : SearchInput) :
    ∀ (n : Nat) (l : List Report),
      (buildResults sid d n l).map SearchResult.reportId = l.map Report.id := by
  intro n l
  induction l generalizing n with
  | nil => rfl
  | cons r rest ih => simp [buildResults, ih]

theorem mem_buildResults (sid : String) (d : SearchInput) :
    ∀ (n : Nat) (l : List Report) (sr : SearchResult), sr ∈ buildResults sid d n l →
      ∃ r ∈ l, sr.reportId = r.id ∧ sr.matchedOn = matchedOnField d r := by
  intro n l
  induction l generalizing n with
  | nil => intro sr h; cases h
  | cons r rest ih =>
      intro sr h
      rw [buildResults] at h
      rcases List.mem_cons.mp h with h | h
      · exact ⟨r, List.mem_cons_self r rest, by simp [h]⟩
      · rcases ih (n + 1) sr h with ⟨x, hx, hrest⟩
        exact ⟨x, List.mem_cons_of_mem r hx, hrest⟩

theorem parseSearchInput_cases (i : SearchInput) :
    parseSearchInput i = some i ∨ parseSearchInput i = none := by
  unfold parseSearchInput
  split <;> simp

theorem createSearch_ok_some (u : String) (i : SearchInput) (tf : Option String)
    (db : DB) (s : Search) (rs : List SearchResult)
    (h : (createSearch u i tf db).1 = Res.ok (s, some rs)) :
    parseSearchInput i = some i ∧ tf = none ∧
      rs = buildResults (freshId db) i (db.nextId + 1) (db.reports.filter (matchesReport i)) ∧
      (createSearch u i tf db).2.searchResults = db.searchResults ++ rs := by
  rcases parseSearchInput_cases i with hp | hp
  · by_cases he : (providedEntries i).isEmpty
    · simp [createSearch, hp, he] at h
    · cases tf with
      | some m => simp [createSearch, hp, he] at h
      | none =>
          simp only [createSearch, hp, he, if_false, Bool.false_eq_true] at h ⊢
          simp only [Res.ok.injEq, Prod.mk.injEq, Option.some.injEq] at h
          exact ⟨trivial, trivial, h.2.symm, by simp [h.2]⟩
  · simp [createSearch, hp] at h

theorem mem_optEntry {kv : String × String} {k : String} {dv : Option String}
    (h : kv ∈ optEntry k dv) : kv.1 = k ∧ dv = some kv.2 := by
  cases dv with
  | none => cases h
  | some v =>
      have h2 := List.mem_singleton.mp h
      subst h2
      exact ⟨rfl, rfl⟩

theorem mem_providedEntries_key {d : SearchInput} {kv : String × String}
    (h : kv ∈ providedEntries d) :
    kv.1 = "name" ∨ kv.1 = "instagramId" ∨ kv.1 = "facebookId" ∨ kv.1 = "email" ∨
      kv.1 = "phoneNumber" := by
  unfold providedEntries at h
  rcases List.mem_append.mp h with h | h
  · exact Or.inl (mem_optEntry h).1
  rcases List.mem_append.mp h with h | h
  · exact Or.inr (Or.inl (mem_optEntry h).1)
  rcases List.mem_append.mp h with h | h
  · exact Or.inr (Or.inr (Or.inl (mem_optEntry h).1))
  rcases List.mem_append.mp h with h | h
  · exact Or.inr (Or.inr (Or.inr (Or.inl (mem_optEntry h).1)))
  · exact Or.inr (Or.inr (Or.inr (Or.inr (mem_optEntry h).1)))

theorem matches_find_some {d : SearchInput} {r : Report} (h : matchesReport d r = true) :
    ∃ kv, (providedEntries d).find? (fun kv => r.field kv.1 == some kv.2) = some kv := by
  have hs : ((providedEntries d).find? (fun kv => r.field kv.1 == some kv.2)).isSome := by
    rw [List.find?_isSome]
    exact List.any_eq_true.mp h
  exact Option.isSome_iff_exists.mp hs

theorem matchedOnField_of_matches {d : SearchInput} {r : Report}
    (h : matchesReport d r = true) :
    priorityMatchedOn d r = some (matchedOnField d r) ∧
      (matchedOnField d r = "name" ∨ matchedOnField d r = "instagramId" ∨
        matchedOnField d r = "facebookId" ∨ matchedOnField d r = "email" ∨
        matchedOnField d r = "phoneNumber") := by
  obtain ⟨kv, hkv⟩ := matches_find_some h
  constructor
  · rw [priorityMatchedOn_eq_find, hkv]
    unfold matchedOnField
    rw [hkv]
    rfl
  · have hmem := List.mem_of_find?_eq_some hkv
    have hkey := mem_providedEntries_key hmem
    unfold matchedOnField
    rw [hkv]
    exact hkey

theorem providedEntries_ne_nil {i : SearchInput} (h : i.hasIdentifier = true) :
    (providedEntries i).isEmpty = false := by
  rcases i with ⟨n, a, b, e, p⟩
  cases n <;> cases a <;> cases b <;> cases e <;> cases p <;>
    simp_all [SearchInput.hasIdentifier, optTruthy, optEntry, providedEntries]

theorem createSearch_error_state (u : String) (i : SearchInput) (tf : Option String)
    (db : DB) (e : SvcError) (h : (createSearch u i tf db).1 = Res.error e) :
    (createSearch u i tf db).2.searchResults = db.searchResults := by
  rcases parseSearchInput_cases i with hp | hp
  · by_cases he : (providedEntries i).isEmpty
    · simp [createSearch, hp, he]
    · cases tf with
      | some m => simp [createSearch, hp, he]
      | none => simp [createSearch, hp, he] at h
  · simp [createSearch, hp]

theorem createSearch_txFail (u : String) (i : SearchInput) (m : String) (db : DB)
    (hp : parseSearchInput i = some i) :
    (createSearch u i (some m) db).1 = Res.error (SvcError.msg m) := by
  have hid : i.hasIdentifier = true := by
    unfold parseSearchInput at hp
    split at hp
    · next hc => exact (Bool.and_eq_true _ _ |>.mp hc).2
    · cases hp
  have he := providedEntries_ne_nil hid
  simp [createSearch, hp, he]

/-- Claim C9: the SearchResult rows of one createSearch invocation are written
    as a single all-or-nothing unit: on any failure (validation or transaction)
    no SearchResult row is persisted and the result is a failure, and on
    success exactly one SearchResult per matching report is appended. -/
theorem c9_searchResults_atomic :
    (∀ (u : String) (i : SearchInput) (tf : Option String) (db : DB) (e : SvcError),
        (createSearch u i tf db).1 = Res.error e →
        (createSearch u i tf db).2.searchResults = db.searchResults)
  ∧ (∀ (u : String) (i : SearchInput) (m : String) (db : DB),
        parseSearchInput i = some i →
        (createSearch u i (some m) db).1 = Res.error (SvcError.msg m))
  ∧ (∀ (u : String) (i : SearchInput) (tf : Option String) (db : DB) (s : Search)
        (rs : List SearchResult), (createSearch u i tf db).1 = Res.ok (s, some rs) →
        (createSearch u i tf db).2.searchResults = db.searchResults ++ rs ∧
        rs.length = (db.reports.filter (matchesReport i)).length ∧
        rs.map SearchResult.reportId = (db.reports.filter (matchesReport i)).map Report.id) := by
  refine ⟨createSearch_error_state, createSearch_txFail, ?_⟩
  intro u i tf db s rs h
  obtain ⟨hp, htf, hrs, hstate⟩ := createSearch_ok_some u i tf db s rs h
  exact ⟨hstate, by rw [hrs, buildResults_length], by rw [hrs, buildResults_map_reportId]⟩

/-- Claim C10: every SearchResult created by a successful createSearch carries
    one of the five identifier field names as matchedOn; the code's "unknown"
    fallback is unreachable because every report selected by the disjunctive OR
    predicate satisfies at least one of the scanned equalities. -/
theorem c10_matchedOn_known :
    ∀ (u : String) (i : SearchInput) (tf : Option String) (db : DB) (s : Search)
      (rs : List SearchResult), (createSearch u i tf db).1 = Res.ok (s, some rs) →
      ∀ sr ∈ rs, sr.matchedOn ≠ "unknown" ∧
        (sr.matchedOn = "name" ∨ sr.matchedOn = "instagramId" ∨ sr.matchedOn = "facebookId" ∨
          sr.matchedOn = "email" ∨ sr.matchedOn = "phoneNumber") := by
  intro u i tf db s rs h sr hsr
  obtain ⟨hp, htf, hrs, _⟩ := createSearch_ok_some u i tf db s rs h
  subst hrs
  obtain ⟨r, hrmem, hrid, hmo⟩ := mem_buildResults _ _ _ _ _ hsr
  have hmatch : matchesReport i r = true := (List.mem_filter.mp hrmem).2
  have hkeys := (matchedOnField_of_matches hmatch).2
  rw [hmo]
  refine ⟨?_, hkeys⟩
  rcases hkeys with h1 | h1 | h1 | h1 | h1 <;> rw [h1] <;> decide

/-- Claim C1: each created SearchResult's matchedOn equals the result of
    scanning the input's fields in the fixed priority order name, instagramId,
    facebookId, email, phoneNumber and reporting the first equal field; a
    report equal on both name and email reports "name"; an email-only input
    matching exactly one report yields exactly one result matched on "email". -/
theorem c1_matchedOn_priority :
    (∀ (u : String) (i : SearchInput) (tf : Option String) (db : DB) (s : Search)
        (rs : List SearchResult), (createSearch u i tf db).1 = Res.ok (s, some rs) →
        ∀ sr ∈ rs, ∃ r ∈ db.reports, matchesReport i r = true ∧ sr.reportId = r.id ∧
          priorityMatchedOn i r = some sr.matchedOn)
  ∧ (∀ (d : SearchInput) (r : Report) (n e : String),
        d.name = some n → r.name = some n → d.email = some e → r.email = some e →
        matchedOnField d r = "name" ∧ priorityMatchedOn d r = some "name")
  ∧ (∀ (u e : String) (tf : Option String) (db : DB) (s : Search) (rs : List SearchResult),
        (createSearch u ⟨none, none, none, some e, none⟩ tf db).1 = Res.ok (s, some rs) →
        (db.reports.filter fun r => r.email == some e).length = 1 →
        rs.length = 1 ∧ ∀ sr ∈ rs, sr.matchedOn = "email") := by
  refine ⟨?_, ?_, ?_⟩
  · intro u i tf db s rs h sr hsr
    obtain ⟨hp, htf, hrs, _⟩ := createSearch_ok_some u i tf db s rs h
    subst hrs
    obtain ⟨r, hrmem, hrid, hmo⟩ := mem_buildResults _ _ _ _ _ hsr
    have hm := List.mem_filter.mp hrmem
    refine ⟨r, hm.1, hm.2, hrid, ?_⟩
    rw [hmo]
    exact (matchedOnField_of_matches hm.2).1
  · intro d r n e hdn hrn hde hre
    have hmf : matchedOnField d r = "name" := by
      unfold matchedOnField providedEntries
      rw [hdn]
      simp [optEntry, List.find?_cons, Report.field, hrn]
    refine ⟨hmf, ?_⟩
    have hmatch : matchesReport d r = true := by
      rw [matchesReport_eq, hdn, hrn]
      simp [fieldPairMatches]
    have := (matchedOnField_of_matches hmatch).1
    rw [hmf] at this
    exact this
  · intro u e tf db s rs h hone
    obtain ⟨hp, htf, hrs, _⟩ := createSearch_ok_some _ _ _ _ _ _ h
    have hfilter : db.reports.filter (matchesReport ⟨none, none, none, some e, none⟩) =
        db.reports.filter fun r => r.email == some e := by
      apply List.filter_congr
      intro r _
      rw [matchesReport_eq]
      simp [fieldPairMatches]
    constructor
    · rw [hrs, buildResults_length, hfilter]
      exact hone
    · intro sr hsr
      rw [hrs] at hsr
      obtain ⟨r, hrmem, _, hmo⟩ := mem_buildResults _ _ _ _ _ hsr
      have hmatch := (List.mem_filter.mp hrmem).2
      rw [matchesReport_eq] at hmatch
      simp only [fieldPairMatches, Bool.false_or, Bool.or_false] at hmatch
      rw [hmo]
      unfold matchedOnField providedEntries
      simp [optEntry, List.find?_cons, Report.field, hmatch]

/-- Witness for c1_matchedOn_priority at the concrete fixture store. -/
theorem c1_matchedOn_priority_witness :
    (∃ r ∈ wDB.reports, matchesReport wEmailInput r = true ∧ wResult.reportId = r.id ∧
        priorityMatchedOn wEmailInput r = some wResult.matchedOn) ∧
      (matchedOnField wBothInput wReport = "name" ∧
        priorityMatchedOn wBothInput wReport = some "name") ∧
      ([wResult].length = 1 ∧ ∀ sr ∈ [wResult], sr.matchedOn = "email") :=
  ⟨c1_matchedOn_priority.1 "bob" wEmailInput none wDB wSearch [wResult] (by decide)
      wResult (by decide),
   c1_matchedOn_priority.2.1 wBothInput wReport "John Doe" "a@x.com" rfl rfl rfl rfl,
   c1_matchedOn_priority.2.2 "bob" "a@x.com" none wDB wSearch [wResult] (by decide) (by decide)⟩

/-- Witness for c9_searchResults_atomic at the concrete fixture store. -/
theorem c9_searchResults_atomic_witness :
    (createSearch "bob" wEmailInput (some "db down") wDB).2.searchResults =
        wDB.searchResults ∧
      (createSearch "bob" wEmailInput (some "db down") wDB).1 =
        Res.error (SvcError.msg "db down") ∧
      ((createSearch "bob" wEmailInput none wDB).2.searchResults =
          wDB.searchResults ++ [wResult] ∧
        [wResult].length = (wDB.reports.filter (matchesReport wEmailInput)).length ∧
        [wResult].map SearchResult.reportId =
          (wDB.reports.filter (matchesReport wEmailInput)).map Report.id) :=
  ⟨c9_searchResults_atomic.1 "bob" wEmailInput (some "db down") wDB
      (SvcError.msg "db down") (by decide),
   c9_searchResults_atomic.2.1 "bob" wEmailInput "db down" wDB (by decide),
   c9_searchResults_atomic.2.2 "bob" wEmailInput none wDB wSearch [wResult] (by decide)⟩

/-- Witness for c10_matchedOn_known at the concrete fixture store. -/
theorem c10_matchedOn_known_witness :
    wResult.matchedOn ≠ "unknown" ∧
      (wResult.matchedOn = "name" ∨ wResult.matchedOn = "instagramId" ∨
        wResult.matchedOn = "facebookId" ∨ wResult.matchedOn = "email" ∨
        wResult.matchedOn = "phoneNumber") :=
  c10_matchedOn_known "bob" wEmailInput none wDB wSearch [wResult] (by decide)
    wResult (by decide)

/-- Counterexample to claim C2 as stated: the input is schema-valid, createSearch
    matches c2Report (and records a SearchResult for it), yet no provided
    NON-EMPTY field of the input equals the report's corresponding field — the
    provided empty-string phoneNumber alone produced the match, because the
    orConditions filter drops only undefined and null values. -/
theorem c2_counterexample :
    parseSearchInput c2Input = some c2Input ∧
      matchesReport c2Input c2Report = true ∧
      nonEmptyFieldMatch c2Input c2Report = false ∧
      (createSearch "bob" c2Input none c2DB).1 =
        Res.ok ({ id := "id0", userId := "bob", name := some "Bob", instagramId := none,
                  facebookId := none, email := none, phoneNumber := some "" },
                some [{ id := "id1", searchId := "id0", reportId := "r2",
                        matchedOn := "phoneNumber" }]) := by
  decide

/-- Claim C2 (amended): a report matches the validated search input exactly when
    at least one PROVIDED field — empty strings included, since the filter drops
    only undefined and null — equals the report's corresponding field; omitted
    fields never appear in the predicate (wildcards). -/
theorem c2_match_iff_provided_field :
    ∀ (i : SearchInput) (r : Report), parseSearchInput i = some i →
      (matchesReport i r = true ↔
        (fieldPairMatches i.name r.name = true ∨
          fieldPairMatches i.instagramId r.instagramId = true ∨
          fieldPairMatches i.facebookId r.facebookId = true ∨
          fieldPairMatches i.email r.email = true ∨
          fieldPairMatches i.phoneNumber r.phoneNumber = true)) := by
  intro i r _
  rw [matchesReport_eq]
  simp [Bool.or_eq_true]

/-- Witness for c2_match_iff_provided_field at the fixture input and report. -/
theorem c2_match_iff_provided_field_witness :
    matchesReport c2Input c2Report = true ↔
      (fieldPairMatches c2Input.name c2Report.name = true ∨
        fieldPairMatches c2Input.instagramId c2Report.instagramId = true ∨
        fieldPairMatches c2Input.facebookId c2Report.facebookId = true ∨
        fieldPairMatches c2Input.email c2Report.email = true ∨
        fieldPairMatches c2Input.phoneNumber c2Report.phoneNumber = true) :=
  c2_match_iff_provided_field c2Input c2Report (by decide)

/-- Claim C6: getReportById succeeds exactly when the report exists and the
    caller owns it or holds an APPROVED access request on it; every failure —
    missing report or insufficient rights — yields the one error string
    "Access denied or report not found.", indistinguishable to the caller. -/
theorem c6_getReportById_visibility :
    ∀ (userId reportId : String) (db : DB),
      ((∃ r, getReportById userId reportId db = Res.ok r) ↔
        (∃ r ∈ db.reports, r.id = reportId ∧
          (r.userId = userId ∨ ∃ q ∈ db.requests, q.reportId = r.id ∧
            q.requesterId = userId ∧ q.status = Status.approved))) ∧
      (¬ (∃ r ∈ db.reports, r.id = reportId ∧
            (r.userId = userId ∨ ∃ q ∈ db.requests, q.reportId = r.id ∧
              q.requesterId = userId ∧ q.status = Status.approved)) →
        getReportById userId reportId db =
          Res.error (SvcError.msg "Access denied or report not found.")) := by
  intro userId reportId db
  have hiff : (∃ x ∈ db.reports,
      (x.id == reportId &&
        (x.userId == userId || db.requests.any fun q =>
          q.reportId == x.id && q.requesterId == userId && q.status == Status.approved)) = true) ↔
      (∃ r ∈ db.reports, r.id = reportId ∧
        (r.userId = userId ∨ ∃ q ∈ db.requests, q.reportId = r.id ∧
          q.requesterId = userId ∧ q.status = Status.approved)) := by
    simp [Bool.and_eq_true, Bool.or_eq_true, List.any_eq_true, and_assoc]
  cases hf : db.reports.find? (fun r =>
      r.id == reportId &&
        (r.userId == userId || db.requests.any fun q =>
          q.reportId == r.id && q.requesterId == userId && q.status == Status.approved)) with
  | some r =>
      have hres : getReportById userId reportId db = Res.ok r := by
        unfold getReportById
        rw [hf]
      constructor
      · rw [← hiff]
        exact ⟨fun _ => ⟨r, List.mem_of_find?_eq_some hf, by have hp := List.find?_some hf; exact hp⟩,
               fun _ => ⟨r, hres⟩⟩
      · intro hno
        exact absurd (hiff.mp ⟨r, List.mem_of_find?_eq_some hf,
          by have hp := List.find?_some hf; exact hp⟩) hno
  | none =>
      have hres : getReportById userId reportId db =
          Res.error (SvcError.msg "Access denied or report not found.") := by
        unfold getReportById
        rw [hf]
      constructor
      · rw [← hiff]
        constructor
        · rintro ⟨x, hx⟩
          rw [hres] at hx
          cases hx
        · rintro ⟨x, hmem, hx⟩
          exact absurd hx (by simpa using List.find?_eq_none.mp hf x hmem)
      · intro _
        exact hres

/-- Witness for c6_getReportById_visibility: a stranger querying the fixture
    store gets the single merged error. -/
theorem c6_getReportById_visibility_witness :
    getReportById "mallory" "r1" wDB =
      Res.error (SvcError.msg "Access denied or report not found.") :=
  (c6_getReportById_visibility "mallory" "r1" wDB).2 (by decide)

theorem parseReportInput_cases (i : ReportInput) :
    parseReportInput i = some i ∨ parseReportInput i = none := by
  unfold parseReportInput
  split <;> simp

/-- Counterexample to claim C7 as stated: rating 11/2 is not an integer, lies
    inside [0,10], and createReport succeeds on it — reportInputSchema uses
    z.number().min(0).max(10) with no integrality check. -/
theorem c7_counterexample :
    c7Input.rating.den ≠ 1 ∧ ratingOk c7Input.rating = true ∧
      parseReportInput c7Input = some c7Input ∧
      (createReport "u1" c7Input wDB).1 =
        Res.ok { id := "id0", userId := "u1", name := some "x", instagramId := none,
                 facebookId := none, email := none, phoneNumber := none,
                 rating := mkRat 11 2, description := none } := by
  decide

/-- Claim C7 (amended): createReport rejects every input whose rating lies
    outside [0,10] with a validation failure and no state change, and accepts
    otherwise-valid inputs at the boundary ratings 0 and 10; the schema checks
    only the bounds, not integrality. -/
theorem c7_rating_bounds :
    (∀ (u : String) (i : ReportInput) (db : DB), ¬ (0 ≤ i.rating ∧ i.rating ≤ 10) →
        createReport u i db = (Res.error SvcError.validation, db))
  ∧ (∀ (u : String) (i : ReportInput) (db : DB), reportIdentChecks i = true →
        (i.rating = 0 ∨ i.rating = 10) →
        ∃ r, (createReport u i db).1 = Res.ok r ∧ r.rating = i.rating ∧ r.userId = u) := by
  constructor
  · intro u i db hout
    have hro : ratingOk i.rating = false := by
      unfold ratingOk
      rcases not_and_or.mp hout with h | h <;> simp [h]
    have hp : parseReportInput i = none := by
      unfold parseReportInput
      simp [hro]
    simp [createReport, hp]
  · intro u i db hid hrb
    have hro : ratingOk i.rating = true := by
      unfold ratingOk
      rcases hrb with h | h <;> rw [h] <;> norm_num
    have hp : parseReportInput i = some i := by
      unfold parseReportInput
      simp [hro, hid]
    exact ⟨{ id := freshId db, userId := u, name := i.name, instagramId := i.instagramId,
             facebookId := i.facebookId, email := i.email, phoneNumber := i.phoneNumber,
             rating := i.rating, description := i.description },
           by simp [createReport, hp], rfl, rfl⟩

/-- Witness for c7_rating_bounds: rating 11 is rejected with no state change;
    ratings 0 and 10 are accepted. -/
theorem c7_rating_bounds_witness :
    createReport "u1"
        { name := some "x", instagramId := none, facebookId := none, email := none,
          phoneNumber := none, rating := 11, description := none } wDB =
      (Res.error SvcError.validation, wDB) ∧
    (∃ r, (createReport "u1"
        { name := some "x", instagramId := none, facebookId := none, email := none,
          phoneNumber := none, rating := 0, description := none } wDB).1 = Res.ok r ∧
        r.rating = 0 ∧ r.userId = "u1") ∧
    (∃ r, (createReport "u1"
        { name := some "x", instagramId := none, facebookId := none, email := none,
          phoneNumber := none, rating := 10, description := none } wDB).1 = Res.ok r ∧
        r.rating = 10 ∧ r.userId = "u1") :=
  ⟨c7_rating_bounds.1 "u1" _ wDB (by norm_num),
   c7_rating_bounds.2 "u1" _ wDB (by decide) (Or.inl rfl),
   c7_rating_bounds.2 "u1" _ wDB (by decide) (Or.inr rfl)⟩

/-- Counterexample to claim C8 as stated: the update succeeds, yet the stored
    report keeps the old email and description — fields the record omits are
    left unchanged by the Prisma update, not overwritten to the record's
    (absent) values. -/
theorem c8_counterexample :
    c8Input.email = none ∧ c8Input.description = none ∧
      updateReport "carol" "r8" c8Input c8DB =
        (Res.ok { id := "r8", userId := "carol", name := some "New Name",
                  instagramId := none, facebookId := none, email := some "old@x.com",
                  phoneNumber := none, rating := 7, description := some "old words" },
         { reports := [{ id := "r8", userId := "carol", name := some "New Name",
                         instagramId := none, facebookId := none,
                         email := some "old@x.com", phoneNumber := none, rating := 7,
                         description := some "old words" }],
           requests := [], searches := [], searchResults := [], nextId := 0 }) := by
  decide

/-- Claim C8 (amended): when updateReport succeeds, every field the record
    provides is overwritten with the record's value, rating (always present) is
    overwritten, and every identifier or description field the record omits
    keeps its previously stored value. -/
theorem c8_update_overwrites :
    ∀ (u rid : String) (i : ReportInput) (db : DB) (existing : Report),
      db.reports.find? (fun r => r.id == rid) = some existing →
      existing.userId = u →
      parseReportInput i = some i →
      (updateReport u rid i db).1 = Res.ok (applyReportUpdate i existing) ∧
      (updateReport u rid i db).2.reports =
        db.reports.map (fun r => if r.id == rid then applyReportUpdate i r else r) ∧
      (applyReportUpdate i existing).rating = i.rating ∧
      (applyReportUpdate i existing).id = existing.id ∧
      (applyReportUpdate i existing).userId = existing.userId ∧
      (∀ v, i.name = some v → (applyReportUpdate i existing).name = some v) ∧
      (i.name = none → (applyReportUpdate i existing).name = existing.name) ∧
      (∀ v, i.instagramId = some v → (applyReportUpdate i existing).instagramId = some v) ∧
      (i.instagramId = none →
        (applyReportUpdate i existing).instagramId = existing.instagramId) ∧
      (∀ v, i.facebookId = some v → (applyReportUpdate i existing).facebookId = some v) ∧
      (i.facebookId = none → (applyReportUpdate i existing).facebookId = existing.facebookId) ∧
      (∀ v, i.email = some v → (applyReportUpdate i existing).email = some v) ∧
      (i.email = none → (applyReportUpdate i existing).email = existing.email) ∧
      (∀ v, i.phoneNumber = some v → (applyReportUpdate i existing).phoneNumber = some v) ∧
      (i.phoneNumber = none →
        (applyReportUpdate i existing).phoneNumber = existing.phoneNumber) ∧
      (∀ v, i.description = some v → (applyReportUpdate i existing).description = some v) ∧
      (i.description = none →
        (applyReportUpdate i existing).description = existing.description) := by
  intro u rid i db existing hf hown hp
  have hbeq : (existing.userId == u) = true := by simp [hown]
  refine ⟨?_, ?_, ?_⟩
  · simp [updateReport, hf, hbeq, hp]
  · simp [updateReport, hf, hbeq, hp]
  · refine ⟨rfl, rfl, rfl, ?_⟩
    unfold applyReportUpdate mergeField
    refine ⟨?_, ?_, ?_, ?_, ?_, ?_, ?_, ?_, ?_, ?_, ?_, ?_⟩ <;>
      cases hn : i.name <;> cases hi : i.instagramId <;> cases hfb : i.facebookId <;>
        cases he : i.email <;> cases hph : i.phoneNumber <;> cases hd : i.description <;>
        simp_all
  
/-- Witness for c8_update_overwrites at the counterexample fixture. -/
theorem c8_update_overwrites_witness :
    (updateReport "carol" "r8" c8Input c8DB).1 =
      Res.ok (applyReportUpdate c8Input c8Report) ∧
    (applyReportUpdate c8Input c8Report).email = c8Report.email ∧
    (applyReportUpdate c8Input c8Report).name = some "New Name" := by
  obtain ⟨h1, h2, h3, h4, h5, hn1, hn2, hi1, hi2, hf1, hf2, he1, he2, hp1, hp2, hd1, hd2⟩ :=
    c8_update_overwrites "carol" "r8" c8Input c8DB c8Report (by decide) rfl (by decide)
  exact ⟨h1, he2 rfl, hn1 "New Name" rfl⟩

/-- Claim C5: once any request by this requester exists on this report, a
    further requestAccessToReport always fails with the conflict error naming
    the existing request's current status — whatever that status is — and
    leaves the store unchanged (no new request row). -/
theorem c5_duplicate_request_conflict :
    ∀ (uid rid msg : String) (db : DB) (report : Report) (ex : AccessRequest),
      db.reports.find? (fun r => r.id == rid) = some report →
      report.userId ≠ uid →
      db.requests.find? (fun q => q.reportId == rid && q.requesterId == uid) = some ex →
      requestAccessToReport uid rid msg db =
        (Res.error (SvcError.msg ("You already have a " ++ ex.status.lower ++
          " request for this report.")), db) := by
  intro uid rid msg db report ex hrep hown hex
  have hbeq : (report.userId == uid) = false := by
    simp [hown]
  unfold requestAccessToReport
  rw [hrep]
  simp only [hbeq, Bool.false_eq_true, if_false]
  rw [hex]

/-- Witness for c5_duplicate_request_conflict: bob's second request fails with
    the conflict error naming the approved status, and the store is unchanged. -/
theorem c5_duplicate_request_conflict_witness :
    requestAccessToReport "bob" "r1" "a new valid message" c5DB =
      (Res.error (SvcError.msg "You already have a approved request for this report."),
       c5DB) :=
  c5_duplicate_request_conflict "bob" "r1" "a new valid message" c5DB wReport c5Request
    (by decide) (by decide) (by decide)

/-- Claim C3: if approving a pending access request succeeds, the requester can
    immediately read the report through getReportById, which returns that
    report — the two components agree on the authorization predicate. -/
theorem c3_approve_then_visible :
    ∀ (ownerId requesterId reqId rid : String) (db : DB) (req : AccessRequest)
      (report : Report) (req2 : AccessRequest) (db2 : DB),
      db.requests.find? (fun q => q.id == reqId) = some req →
      req.reportId = rid → req.requesterId = requesterId →
      db.reports.find? (fun r => r.id == rid) = some report →
      approveAccessRequest ownerId reqId db = (Res.ok req2, db2) →
      getReportById requesterId rid db2 = Res.ok report := by
  intro ownerId requesterId reqId rid db req report req2 db2 h1 h2 h3 h4 h5
  unfold approveAccessRequest at h5
  rw [h1] at h5
  by_cases ho : (req.reportOwnerId == ownerId) = true
  case neg => simp [ho] at h5
  by_cases hs : (req.status == Status.pending) = true
  case neg => simp [ho, hs] at h5
  simp only [ho, hs, if_true, Prod.mk.injEq] at h5
  obtain ⟨-, hdb2⟩ := h5
  subst hdb2
  have hqid : (req.id == reqId) = true := by
    have hp := List.find?_some h1
    exact hp
  have hreq2mem : ({ req with status := Status.approved } : AccessRequest) ∈
      (setStatus db reqId Status.approved).requests := by
    unfold setStatus
    simp only
    refine List.mem_map.mpr ⟨req, List.mem_of_find?_eq_some h1, ?_⟩
    rw [hqid]
    rfl
  have hrid : report.id = rid := by
    have hp := List.find?_some h4
    simpa using hp
  have hq : (report.userId == requesterId ||
      (setStatus db reqId Status.approved).requests.any fun q =>
        q.reportId == report.id && q.requesterId == requesterId &&
          q.status == Status.approved) = true := by
    refine Bool.or_eq_true _ _ |>.mpr (Or.inr ?_)
    rw [List.any_eq_true]
    refine ⟨{ req with status := Status.approved }, hreq2mem, ?_⟩
    simp [h2, h3, hrid]
  have hfound : (setStatus db reqId Status.approved).reports.find?
      (fun r => r.id == rid && (r.userId == requesterId ||
        (setStatus db reqId Status.approved).requests.any fun q =>
          q.reportId == r.id && q.requesterId == requesterId &&
            q.status == Status.approved)) = some report := by
    show db.reports.find? _ = some report
    exact find?_and_of_find? (fun r => r.id == rid)
      (fun r => r.userId == requesterId ||
        (setStatus db reqId Status.approved).requests.any fun q =>
          q.reportId == r.id && q.requesterId == requesterId &&
            q.status == Status.approved)
      db.reports report h4 hq
  unfold getReportById
  rw [hfound]

/-- Witness for c3_approve_then_visible: after alice approves bob's pending
    request, bob's getReportById returns the report. -/
theorem c3_approve_then_visible_witness :
    getReportById "bob" "r1" (setStatus c3DB "q3" Status.approved) = Res.ok wReport :=
  c3_approve_then_visible "alice" "bob" "q3" "r1" c3DB c3Request wReport
    { c3Request with status := Status.approved } (setStatus c3DB "q3" Status.approved)
    (by decide) rfl rfl (by decide) (by decide)

theorem createReport_requests (u : String) (i : ReportInput) (db : DB) :
    (createReport u i db).2.requests = db.requests := by
  rcases parseReportInput_cases i with hp | hp <;> simp [createReport, hp]

theorem updateReport_requests (u rid : String) (i : ReportInput) (db : DB) :
    (updateReport u rid i db).2.requests = db.requests := by
  unfold updateReport
  cases hf : db.reports.find? (fun r => r.id == rid) with
  | none => rfl
  | some ex =>
      by_cases ho : (ex.userId == u) = true
      · rcases parseReportInput_cases i with hp | hp <;> simp [ho, hp]
      · simp [ho]

theorem deleteReport_requests (u rid : String) (db : DB) :
    (deleteReport u rid db).2.requests = db.requests := by
  unfold deleteReport
  cases hf : db.reports.find? (fun r => r.id == rid) with
  | none => rfl
  | some r =>
      by_cases ho : (r.userId == u) = true <;> simp [ho]

theorem createSearch_requests (u : String) (i : SearchInput) (tf : Option String) (db : DB) :
    (createSearch u i tf db).2.requests = db.requests := by
  rcases parseSearchInput_cases i with hp | hp
  · by_cases he : (providedEntries i).isEmpty
    · simp [createSearch, hp, he]
    · cases tf with
      | some m => simp [createSearch, hp, he]
      | none => simp [createSearch, hp, he]
  · simp [createSearch, hp]

theorem updateSearch_requests (u sid : String) (i : SearchInput) (db : DB) :
    (updateSearch u sid i db).2.requests = db.requests := by
  unfold updateSearch
  cases hf : db.searches.find? (fun s => s.id == sid) with
  | none => rfl
  | some ex =>
      by_cases ho : (ex.userId == u) = true
      · rcases parseSearchInput_cases i with hp | hp <;> simp [ho, hp]
      · simp [ho]

theorem deleteSearch_requests (u sid : String) (db : DB) :
    (deleteSearch u sid db).2.requests = db.requests := by
  unfold deleteSearch
  cases hf : db.searches.find? (fun s => s.id == sid) with
  | none => rfl
  | some s =>
      by_cases ho : (s.userId == u) = true <;> simp [ho]

theorem requestAccess_requests (u rid m : String) (db : DB) :
    (requestAccessToReport u rid m db).2.requests = db.requests ∨
      ∃ req : AccessRequest, req.status = Status.pending ∧
        (requestAccessToReport u rid m db).2.requests = db.requests ++ [req] := by
  unfold requestAccessToReport
  cases hf : db.reports.find? (fun r => r.id == rid) with
  | none => exact Or.inl rfl
  | some report =>
      by_cases ho : (report.userId == u) = true
      · simp [ho]
      · simp only [ho, Bool.false_eq_true, if_false]
        cases hex : db.requests.find? (fun q => q.reportId == rid && q.requesterId == u) with
        | some ex => exact Or.inl rfl
        | none =>
            by_cases hlen : 10 ≤ m.length ∧ m.length ≤ 1000
            · refine Or.inr
                ⟨{ id := freshId db, reportId := report.id,
                   reportOwnerId := report.userId, requesterId := u, message := m,
                   status := Status.pending }, rfl, by simp [hlen]⟩
            · exact Or.inl (by simp [hlen])

theorem approve_step (o rid : String) (db : DB) :
    (approveAccessRequest o rid db).2 = db ∨
      ∃ req, db.requests.find? (fun q => q.id == rid) = some req ∧
        req.reportOwnerId = o ∧ req.status = Status.pending ∧
        (approveAccessRequest o rid db).2 = setStatus db rid Status.approved := by
  unfold approveAccessRequest
  cases hf : db.requests.find? (fun q => q.id == rid) with
  | none => exact Or.inl rfl
  | some req =>
      by_cases ho : (req.reportOwnerId == o) = true
      · by_cases hs : (req.status == Status.pending) = true
        · exact Or.inr ⟨req, rfl, by simpa using ho, by simpa using hs, by simp [ho, hs]⟩
        · exact Or.inl (by simp [ho, hs])
      · exact Or.inl (by simp [ho])

theorem deny_step (o rid : String) (db : DB) :
    (denyAccessRequest o rid db).2 = db ∨
      ∃ req, db.requests.find? (fun q => q.id == rid) = some req ∧
        req.reportOwnerId = o ∧ req.status = Status.pending ∧
        (denyAccessRequest o rid db).2 = setStatus db rid Status.denied := by
  unfold denyAccessRequest
  cases hf : db.requests.find? (fun q => q.id == rid) with
  | none => exact Or.inl rfl
  | some req =>
      by_cases ho : (req.reportOwnerId == o) = true
      · by_cases hs : (req.status == Status.pending) = true
        · exact Or.inr ⟨req, rfl, by simpa using ho, by simpa using hs, by simp [ho, hs]⟩
        · exact Or.inl (by simp [ho, hs])
      · exact Or.inl (by simp [ho])

theorem getElem?_same_absurd {l : List AccessRequest} {i : Nat} {q q' : AccessRequest}
    (hq : l[i]? = some q) (hq' : l[i]? = some q') (hne : q'.status ≠ q.status) : False := by
  rw [hq] at hq'
  injection hq' with h
  exact hne (by rw [h])

theorem setStatus_getElem {db : DB} {rid : String} {s : Status} {i : Nat}
    {q q' : AccessRequest} (hq : db.requests[i]? = some q)
    (hq' : (setStatus db rid s).requests[i]? = some q') :
    q' = (if q.id == rid then { q with status := s } else q) := by
  unfold setStatus at hq'
  simp only [List.getElem?_map, hq] at hq'
  injection hq' with h
  exact h.symm

/-- Claim C4: a request's status changes only from PENDING, only to APPROVED or
    DENIED, and only through approve/deny invoked with the request's snapshotted
    reportOwnerId (no other operation of the system touches a stored status);
    approve or deny on a request that is already APPROVED or DENIED never
    changes the store, always fails, and — when invoked by the owner, the only
    caller that reaches the status check — reports the current status in the
    InvalidOperation message. -/
theorem c4_status_transitions :
    (∀ (op : Op) (db : DB) (i : Nat) (q q' : AccessRequest),
        (db.requests.map AccessRequest.id).Nodup →
        db.requests[i]? = some q → (step op db).requests[i]? = some q' →
        q'.status ≠ q.status →
        q.status = Status.pending ∧
          ((op = Op.opApprove q.reportOwnerId q.id ∧
              q' = { q with status := Status.approved }) ∨
            (op = Op.opDeny q.reportOwnerId q.id ∧
              q' = { q with status := Status.denied })))
  ∧ (∀ (o rid : String) (db : DB) (req : AccessRequest),
        db.requests.find? (fun q => q.id == rid) = some req →
        req.status ≠ Status.pending →
        (approveAccessRequest o rid db).2 = db ∧ (denyAccessRequest o rid db).2 = db ∧
        (∃ e, (approveAccessRequest o rid db).1 = Res.error e) ∧
        (∃ e, (denyAccessRequest o rid db).1 = Res.error e) ∧
        (o = req.reportOwnerId →
          (approveAccessRequest o rid db).1 =
            Res.error (SvcError.msg ("Request is already " ++ req.status.lower)) ∧
          (denyAccessRequest o rid db).1 =
            Res.error (SvcError.msg ("Request is already " ++ req.status.lower)))) := by
  constructor
  · intro op db i q q' hnd hq hq' hne
    cases op with
    | opCreateReport u inp =>
        simp only [step, createReport_requests] at hq'
        exact (getElem?_same_absurd hq hq' hne).elim
    | opUpdateReport u rid inp =>
        simp only [step, updateReport_requests] at hq'
        exact (getElem?_same_absurd hq hq' hne).elim
    | opDeleteReport u rid =>
        simp only [step, deleteReport_requests] at hq'
        exact (getElem?_same_absurd hq hq' hne).elim
    | opCreateSearch u inp tf =>
        simp only [step, createSearch_requests] at hq'
        exact (getElem?_same_absurd hq hq' hne).elim
    | opUpdateSearch u sid inp =>
        simp only [step, updateSearch_requests] at hq'
        exact (getElem?_same_absurd hq hq' hne).elim
    | opDeleteSearch u sid =>
        simp only [step, deleteSearch_requests] at hq'
        exact (getElem?_same_absurd hq hq' hne).elim
    | opRequestAccess u rid m =>
        simp only [step] at hq'
        rcases requestAccess_requests u rid m db with hr | ⟨nreq, hnp, hr⟩
        · rw [hr] at hq'
          exact (getElem?_same_absurd hq hq' hne).elim
        · rw [hr] at hq'
          have hi : i < db.requests.length := (List.getElem?_eq_some.mp hq).1
          rw [List.getElem?_append, if_pos hi] at hq'
          exact (getElem?_same_absurd hq hq' hne).elim
    | opApprove o rid =>
        simp only [step] at hq'
        rcases approve_step o rid db with hstep | ⟨req, hfind, hown, hpend, hstep⟩
        · rw [hstep] at hq'
          exact (getElem?_same_absurd hq hq' hne).elim
        · rw [hstep] at hq'
          have hq'eq := setStatus_getElem hq hq'
          by_cases hqid : (q.id == rid) = true
          · rw [if_pos hqid] at hq'eq
            have hqrid : q.id = rid := by simpa using hqid
            have hreqrid : req.id = rid := by
              have hp := List.find?_some hfind
              simpa using hp
            have hqeq : q = req :=
              List.inj_on_of_nodup_map hnd (List.getElem?_mem hq)
                (List.mem_of_find?_eq_some hfind) (by rw [hqrid, hreqrid])
            refine ⟨by rw [hqeq]; exact hpend, Or.inl ⟨?_, hq'eq⟩⟩
            rw [hqrid]
            have : o = q.reportOwnerId := by rw [hqeq]; exact hown.symm
            rw [this]
          · rw [if_neg hqid] at hq'eq
            exact absurd (by rw [hq'eq]) hne
    | opDeny o rid =>
        simp only [step] at hq'
        rcases deny_step o rid db with hstep | ⟨req, hfind, hown, hpend, hstep⟩
        · rw [hstep] at hq'
          exact (getElem?_same_absurd hq hq' hne).elim
        · rw [hstep] at hq'
          have hq'eq := setStatus_getElem hq hq'
          by_cases hqid : (q.id == rid) = true
          · rw [if_pos hqid] at hq'eq
            have hqrid : q.id = rid := by simpa using hqid
            have hreqrid : req.id = rid := by
              have hp := List.find?_some hfind
              simpa using hp
            have hqeq : q = req :=
              List.inj_on_of_nodup_map hnd (List.getElem?_mem hq)
                (List.mem_of_find?_eq_some hfind) (by rw [hqrid, hreqrid])
            refine ⟨by rw [hqeq]; exact hpend, Or.inr ⟨?_, hq'eq⟩⟩
            rw [hqrid]
            have : o = q.reportOwnerId := by rw [hqeq]; exact hown.symm
            rw [this]
          · rw [if_neg hqid] at hq'eq
            exact absurd (by rw [hq'eq]) hne
  · intro o rid db req hf hs
    have hsb : (req.status == Status.pending) = false := by
      simpa using hs
    refine ⟨?_, ?_, ?_, ?_, ?_⟩
    · unfold approveAccessRequest
      rw [hf]
      by_cases ho : (req.reportOwnerId == o) = true <;> simp [ho, hsb]
    · unfold denyAccessRequest
      rw [hf]
      by_cases ho : (req.reportOwnerId == o) = true <;> simp [ho, hsb]
    · unfold approveAccessRequest
      rw [hf]
      by_cases ho : (req.reportOwnerId == o) = true
      · exact ⟨SvcError.msg ("Request is already " ++ req.status.lower), by simp [ho, hsb]⟩
      · exact ⟨SvcError.msg "You don\x27t have permission to approve this request",
          by simp [ho]⟩
    · unfold denyAccessRequest
      rw [hf]
      by_cases ho : (req.reportOwnerId == o) = true
      · exact ⟨SvcError.msg ("Request is already " ++ req.status.lower), by simp [ho, hsb]⟩
      · exact ⟨SvcError.msg "You don\x27t have permission to deny this request",
          by simp [ho]⟩
    · intro hoeq
      have ho : (req.reportOwnerId == o) = true := by simp [hoeq]
      constructor
      · unfold approveAccessRequest
        rw [hf]
        simp [ho, hsb]
      · unfold denyAccessRequest
        rw [hf]
        simp [ho, hsb]

/-- Witness for c4_status_transitions: the approve step on the pending fixture
    request is classified as the owner's approve transition, and approve on the
    already-approved fixture request leaves the store unchanged and reports the
    current status. -/
theorem c4_status_transitions_witness :
    (c3Request.status = Status.pending ∧
      ((Op.opApprove "alice" "q3" = Op.opApprove c3Request.reportOwnerId c3Request.id ∧
          ({ c3Request with status := Status.approved } : AccessRequest) =
            { c3Request with status := Status.approved }) ∨
        (Op.opApprove "alice" "q3" = Op.opDeny c3Request.reportOwnerId c3Request.id ∧
          ({ c3Request with status := Status.approved } : AccessRequest) =
            { c3Request with status := Status.denied }))) ∧
    ((approveAccessRequest "alice" "q1" c5DB).2 = c5DB ∧
      (approveAccessRequest "alice" "q1" c5DB).1 =
        Res.error (SvcError.msg "Request is already approved")) := by
  constructor
  · exact c4_status_transitions.1 (Op.opApprove "alice" "q3") c3DB 0 c3Request
      { c3Request with status := Status.approved } (by decide) (by decide) (by decide)
      (by decide)
  · obtain ⟨ha, hd, he1, he2, himp⟩ :=
      c4_status_transitions.2 "alice" "q1" c5DB c5Request (by decide) (by decide)
    exact ⟨ha, (himp rfl).1⟩

end Credate
